import Mathlib

/-!
Verification development for the WiseFood data-catalog repository.

The definitions below are a shallow embedding of the Python sources:
`src/entity.py`, `src/entities/guides.py`, `src/entities/organizations.py`,
`src/backend/elastic.py`, `src/routers/artifacts.py`, `src/schemas.py` and
the legacy prototype `app/service.py`.  Documents are modelled as ordered
association lists (Python dicts preserve insertion order), external stores
as association lists keyed by document id, and Python exceptions as an
explicit error type threaded through `Except` / state-passing results.
-/

namespace Catalog

/-- JSON-like values carried by documents (Python dict values after
`model_dump(mode="json")`). -/
inductive JVal where
  | null
  | str (s : String)
  | int (n : Int)
  | bool (b : Bool)
  | arr (elems : List JVal)
  | obj (fields : List (String × JVal))

/-- A document / Python dict: ordered association list from field name to value. -/
abbrev Doc := List (String × JVal)

/-- First-match lookup, like Python `d[k]` / `d.get(k)`. -/
def Doc.lookup : Doc → String → Option JVal
  | [], _ => none
  | (k', v) :: rest, k => if k' = k then some v else Doc.lookup rest k

/-- Python `k in d`. -/
def Doc.hasKey (d : Doc) (k : String) : Bool :=
  (d.lookup k).isSome

/-- Python `d[k] = v`: replace the existing binding in place, else append
(insertion order preserved). -/
def Doc.set : Doc → String → JVal → Doc
  | [], k, v => [(k, v)]
  | (k', v') :: rest, k, v =>
      if k' = k then (k, v) :: rest else (k', v') :: Doc.set rest k v

/-- Python `d.pop(k)`: drop the binding for `k`. -/
def Doc.erase : Doc → String → Doc
  | [], _ => []
  | (k', v') :: rest, k =>
      if k' = k then Doc.erase rest k else (k', v') :: Doc.erase rest k

def Doc.keys (d : Doc) : List String := d.map Prod.fst

/-- Last-match lookup; used to describe the result of folding `set` over a
document (later bindings win). -/
def Doc.lookupLast : Doc → String → Option JVal
  | [], _ => none
  | (k', v) :: rest, k =>
      match Doc.lookupLast rest k with
      | some w => some w
      | none => if k' = k then some v else none

/-- Elasticsearch partial update (`client.update(id, doc=...)`): fields of
`new` are merged into `old`, overriding where present. -/
def Doc.merge (old new : Doc) : Doc :=
  new.foldl (fun acc kv => acc.set kv.1 kv.2) old

/-- `_source_excludes`: remove the listed fields from a returned document. -/
def Doc.dropKeys (d : Doc) (ks : List String) : Doc :=
  d.filter (fun kv => !(ks.contains kv.1))

/-- An Elasticsearch index: association list from document id to document. -/
abbrev Store := List (String × Doc)

def Store.getDoc : Store → String → Option Doc
  | [], _ => none
  | (i, d) :: rest, k => if i = k then some d else Store.getDoc rest k

/-- Indexing a document: replace the document under the id if present, else
append. -/
def Store.putDoc : Store → String → Doc → Store
  | [], k, d => [(k, d)]
  | (i, d') :: rest, k, d =>
      if i = k then (k, d) :: rest else (i, d') :: Store.putDoc rest k d

/-! ### Python-level string helpers -/

/-- Worker for `pySplit`: forward scan with an accumulator of the current
segment (reversed). -/
def splitAcc (sep : Char) (cur : List Char) : List Char → List (List Char)
  | [] => [cur.reverse]
  | c :: cs =>
      if c = sep then cur.reverse :: splitAcc sep [] cs
      else splitAcc sep (c :: cur) cs

/-- Python `s.split(sep)` for a single-character separator: always returns at
least one segment. -/
def pySplit (s : String) (sep : Char) : List String :=
  (splitAcc sep [] s.data).map (fun l => ⟨l⟩)

/-- Python `parts[-1]` on a `split` result (never empty). -/
def pyLast (l : List String) : String :=
  (l.getLast?).getD ""

/-- `String.startsWith`, over the character data (reduction-friendly). -/
def pyStartsWith (s p : String) : Bool :=
  p.data.isPrefixOf s.data

/-- `String.drop`, over the character data (reduction-friendly). -/
def pyDrop (s : String) (n : Nat) : String :=
  ⟨s.data.drop n⟩

/-- `str.lower()`, over the character data (reduction-friendly). -/
def pyLower (s : String) : String :=
  ⟨s.data.map Char.toLower⟩

/-- Python `"{n:,}"`: decimal digits grouped in threes by commas.  Worker on
the reversed digit list. -/
def chunk3 : List Char → List (List Char)
  | [] => []
  | [a] => [[a]]
  | [a, b] => [[a, b]]
  | a :: b :: c :: rest => [a, b, c] :: chunk3 rest

def fmtComma (n : Nat) : String :=
  let groups := (chunk3 (toString n).data.reverse).map List.reverse
  String.intercalate "," (groups.reverse.map (fun l => ⟨l⟩))

/-! ### Error taxonomy

Modelled from the spec: `exceptions.py` is imported throughout the tree but
is not present under `src/`; spec section 4.3 gives the catalog of domain
error kinds as distinct siblings of one base type.  Constructors for Python
built-in exceptions (`KeyError`, `TypeError`, `NotImplementedError`) and
library/validation failures are included because the embedded code can raise
them. -/
inductive PyErr where
  | DataError (msg : String)
  | AuthenticationError (msg : String)
  | NotAllowedError (msg : String)
  | NotFoundError (msg : String)
  | ConflictError (msg : String)
  | BadGatewayError (msg : String)
  | InternalError (msg : String)
  | NotImplementedError (msg : String)
  | KeyError (key : String)
  | TypeError (msg : String)
  | ValidationError (msg : String)
  | EsError (msg : String)
  | S3Error (msg : String)

/-- Python `f"{e}"` on an exception value, as interpolated into wrapper
messages (`KeyError` renders its key quoted). -/
def PyErr.msg : PyErr → String
  | .DataError m => m
  | .AuthenticationError m => m
  | .NotAllowedError m => m
  | .NotFoundError m => m
  | .ConflictError m => m
  | .BadGatewayError m => m
  | .InternalError m => m
  | .NotImplementedError m => m
  | .KeyError k => "'" ++ k ++ "'"
  | .TypeError m => m
  | .ValidationError m => m
  | .EsError m => m
  | .S3Error m => m

/-! ### Process state

All durable state lives in the external stores (spec section 5): the
Elasticsearch collections, the MinIO bucket contents (object name and byte
size), plus a tick counter modelling successive `datetime.now()` readings
and a counter modelling `uuid.uuid4()` draws.  `minioRemoveFaulty` is the
environment fault flag for `remove_object` (its failure is caught and
logged by the code under study).  Bucket name, external domain and context
path are configuration values per spec section 4.1. -/
structure St where
  guides : Store
  organizations : Store
  artifacts : Store
  minio : List (String × Nat)
  minioRemoveFaulty : Bool
  ticks : Nat
  uuidSeq : Nat
  bucket : String
  appExtDomain : String
  contextPath : String

/-- `datetime.now().isoformat()`: reads the clock and advances it. -/
def nowIso (st : St) : String × St :=
  ("t" ++ toString st.ticks, { st with ticks := st.ticks + 1 })

def hexDigits12 (n : Nat) : String :=
  let s := Nat.toDigits 16 n
  ⟨List.replicate (12 - s.length) '0' ++ s⟩

/-- `uuid.uuid4()`: fresh UUID-shaped strings, one per draw. -/
def mkUuid (n : Nat) : String :=
  "00000000-0000-4000-8000-" ++ hexDigits12 n

def freshUuid (st : St) : String × St :=
  (mkUuid st.uuidSeq, { st with uuidSeq := st.uuidSeq + 1 })

/-- Modelled from the spec: `utils.is_valid_uuid` is imported by
`src/entity.py` but `utils.py` is not present under `src/`; spec section 4.4
describes it as a pure predicate for the lexical 8-4-4-4-12 hex shape of a
UUID. -/
def isHexCh (c : Char) : Bool :=
  c.isDigit || ('a' ≤ c && c ≤ 'f') || ('A' ≤ c && c ≤ 'F')

def is_valid_uuid (s : String) : Bool :=
  match pySplit s '-' with
  | [a, b, c, d, e] =>
      a.length = 8 && b.length = 4 && c.length = 4 && d.length = 4 &&
      e.length = 12 && (a ++ b ++ c ++ d ++ e).data.all isHexCh
  | _ => false

/-! ### Persistence client (`src/backend/elastic.py`)

`get_entity` swallows every failure into an absent value; `index_entity`
writes the document under `document["urn"]` as the store's id — a missing
`urn` key is a Python `KeyError` before any network call; `update_entity`
performs a partial merge-update under `document["urn"]`. -/

def jvalIdStr : JVal → String
  | .str s => s
  | _ => ""

namespace ELASTIC

def get_entity (idx : Store) (urn : String) : Option Doc :=
  idx.getDoc urn

def index_entity (idx : Store) (document : Doc) : Except PyErr Store :=
  match document.lookup "urn" with
  | none => .error (.KeyError "urn")
  | some v => .ok (idx.putDoc (jvalIdStr v) document)

def update_entity (idx : Store) (document : Doc) : Except PyErr Store :=
  match document.lookup "urn" with
  | none => .error (.KeyError "urn")
  | some v =>
      let docId := jvalIdStr v
      match idx.getDoc docId with
      | none => .error (.EsError "document_missing_exception")
      | some old => .ok (idx.putDoc docId (Doc.merge old document))

end ELASTIC

/-! ### Entity base class (`src/entity.py`) -/

namespace Entity

/-- `Entity.resolve_type` (entity.py:145-156): second colon-delimited URN
segment; a missing segment is an `IndexError` wrapped into `DataError`. -/
def resolve_type (urn : String) : Except PyErr String :=
  match (pySplit urn ':').get? 1 with
  | some t => .ok t
  | none => .error (.DataError ("Invalid URN format: " ++ urn ++ ". Error: list index out of range"))

/-- `Entity.invalidate_cache` (entity.py:198-208): guarded by
`config.settings.get("CACHE_ENABLED", False)`; `src/main.py` never sets
`CACHE_ENABLED`, so the guard is `False` and the call is a no-op (and with
caching on, any cache failure is swallowed — the method never raises). -/
def invalidate_cache (st : St) (_urn : String) : St := st

/-- `Entity.validate_existence` (entity.py:158-168): resolves the URN type
and, for guide URNs, invalidates that guide's cache entry.  Despite its
docstring it performs no existence check and never raises `NotFoundError`. -/
def validate_existence (st : St) (urn : String) : Except PyErr St :=
  match resolve_type urn with
  | .error e => .error e
  | .ok t => .ok (if t = "guide" then invalidate_cache st urn else st)

/-- `Entity.upsert_system_fields` (entity.py:366-387).  On create it rewrites
`urn` to `urn:<type>:<last segment>` and draws a fresh UUID `id` (artifacts
also get an `id` when none was supplied); on update it strips any
client-supplied `creator`; it always stamps `updated_at`, and stamps
`created_at` only on create (`datetime.now()` is read once per stamp). -/
def upsert_system_fields (name : String) (spec : Doc) (update : Bool) (st : St) :
    Doc × St :=
  let (spec, st) :=
    if !update && spec.hasKey "urn" then
      match spec.lookup "urn" with
      | some (.str u) =>
          let spec := spec.set "urn" (.str ("urn:" ++ name ++ ":" ++ pyLast (pySplit u ':')))
          let (uid, st') := freshUuid st
          (spec.set "id" (.str uid), st')
      | _ => (spec, st)
    else (spec, st)
  let (spec, st) :=
    if !update && name = "artifact" && !spec.hasKey "id" then
      let (uid, st') := freshUuid st
      (spec.set "id" (.str uid), st')
    else (spec, st)
  let spec := if update && spec.hasKey "creator" then spec.erase "creator" else spec
  let (t1, st) := nowIso st
  let spec := spec.set "updated_at" (.str t1)
  if !update then
    let (t2, st') := nowIso st
    (spec.set "created_at" (.str t2), st')
  else (spec, st)

end Entity

/-! ### Validation schema layer (`src/schemas.py`)

Constrained string shapes from the top of `schemas.py`. -/

def isSlugCh (c : Char) : Bool :=
  c.isDigit || ('a' ≤ c && c ≤ 'z')

def isSepCh (c : Char) : Bool :=
  c = '-' || c = '_'

def noAdjacentSep : List Char → Bool
  | [] => true
  | [_] => true
  | a :: b :: rest => !(isSepCh a && isSepCh b) && noAdjacentSep (b :: rest)

/-- `SlugStr`: 1-100 chars matching `[a-z0-9]+([-_][a-z0-9]+)*`. -/
def isSlug (s : String) : Bool :=
  let cs := s.data
  0 < s.length && s.length ≤ 100 &&
  cs.all (fun c => isSlugCh c || isSepCh c) &&
  (match cs.head? with | some c => isSlugCh c | none => false) &&
  (match cs.getLast? with | some c => isSlugCh c | none => false) &&
  noAdjacentSep cs

def isUrnBodyCh (c : Char) : Bool :=
  isSlugCh c || c = '-' || c = '.' || c = '_' || c = ':' || c = '/'

/-- `UrnStr`: 5-255 chars matching `urn:[a-z0-9][a-z0-9\-._:/]{2,}`. -/
def isUrnStr (s : String) : Bool :=
  5 ≤ s.length && s.length ≤ 255 && pyStartsWith s "urn:" &&
  (match (pyDrop s 4).data with
   | c :: rest => isSlugCh c && rest.length ≥ 2 && rest.all isUrnBodyCh
   | [] => false)

/-- `NonEmptyStr`: 1-2000 chars. -/
def isNonEmptyStr (s : String) : Bool :=
  0 < s.length && s.length ≤ 2000

/-- Pydantic `HttpUrl` (modelled by its scheme requirement). -/
def isHttpUrl (s : String) : Bool :=
  (pyStartsWith s "http://" || pyStartsWith s "https://") && 8 ≤ s.length

/-- ISO 639-1 language code: exactly two lowercase letters. -/
def isLang (s : String) : Bool :=
  s.length = 2 && s.data.all (fun c => 'a' ≤ c && c ≤ 'z')

/-- ISO 3166-1 alpha-2 region: exactly two uppercase letters. -/
def isRegion (s : String) : Bool :=
  s.length = 2 && s.data.all (fun c => 'A' ≤ c && c ≤ 'Z')

def isStatus (s : String) : Bool :=
  ["active", "draft", "archived", "deleted", "deprecated"].contains s

def isLicense (s : String) : Bool :=
  ["MIT", "Apache-2.0", "GPL-3.0", "CC-BY-4.0", "CC-BY-SA-4.0", "Proprietary"].contains s

def JVal.isNull : JVal → Bool
  | .null => true
  | _ => false

/-- Tags validator: each tag a `NonEmptyStr`, unique case-insensitively. -/
def tagsOk (xs : List JVal) : Bool :=
  let ss := xs.filterMap (fun v => match v with | .str s => some s | _ => none)
  ss.length = xs.length && ss.all isNonEmptyStr &&
  (ss.map pyLower).dedup.length = ss.length

/-! #### Guide creation schema (`GuideCreationSchema`, schemas.py:229-273)

The router validates the request body against the schema and hands
`model_dump(mode="json")` to the entity; the entity re-validates.  We embed
the validated object as a record and its JSON dump explicitly. -/

structure GuideCreationData where
  urn : String
  title : String
  description : String
  tags : List String
  status : String
  url : String
  license : String
  region : Option String
  publication_date : Option String
  content : String
  topic : Option String
  audience : Option String
  language : Option String
  artifacts : List Doc

def optStr : Option String → JVal
  | some s => .str s
  | none => .null

def guideCreationValid (g : GuideCreationData) : Bool :=
  isSlug g.urn && isNonEmptyStr g.title && isNonEmptyStr g.description &&
  tagsOk (g.tags.map JVal.str) && g.tags.length ≤ 25 && isStatus g.status &&
  isHttpUrl g.url && isLicense g.license &&
  (match g.region with | some r => isRegion r | none => true) &&
  (match g.language with | some l => isLang l | none => true)

/-- `model_dump(mode="json")` of a validated guide creation object, in field
declaration order. -/
def guideCreationDump (g : GuideCreationData) : Doc :=
  [("urn", .str g.urn), ("title", .str g.title), ("description", .str g.description),
   ("tags", .arr (g.tags.map JVal.str)), ("status", .str g.status),
   ("url", .str g.url), ("license", .str g.license), ("region", optStr g.region),
   ("publication_date", optStr g.publication_date), ("content", .str g.content),
   ("topic", optStr g.topic), ("audience", optStr g.audience),
   ("language", optStr g.language), ("artifacts", .arr (g.artifacts.map JVal.obj))]

/-! #### Guide update schema (`GuideUpdateSchema`, schemas.py:276-311)

All fields optional; unrecognized keys are rejected (`extra="forbid"`); a
whole-object validator rejects an all-absent/all-`None` payload.  The input
`Doc` is the router's `model_dump(mode="json", exclude_unset=True)`: exactly
the keys the caller set, `null` when set to `None`. -/

def guideUpdateAllowedKeys : List String :=
  ["title", "description", "tags", "status", "url", "license", "region",
   "content", "topic", "audience", "language", "artifacts", "publication_date"]

def guideUpdateFieldOk : String → JVal → Bool
  | _, .null => true
  | "title", .str s => isNonEmptyStr s
  | "description", .str s => isNonEmptyStr s
  | "tags", .arr xs => tagsOk xs && xs.length ≤ 25
  | "status", .str s => isStatus s
  | "url", .str s => isHttpUrl s
  | "license", .str s => isLicense s
  | "region", .str s => isRegion s
  | "content", .str _ => true
  | "topic", .str _ => true
  | "audience", .str _ => true
  | "language", .str s => isLang s
  | "artifacts", .arr _ => true
  | "publication_date", .str _ => true
  | _, _ => false

def guideUpdateValidate (spec : Doc) : Except PyErr Unit :=
  if !(spec.keys.all (fun k => guideUpdateAllowedKeys.contains k)) then
    .error (.ValidationError "extra inputs are not permitted")
  else if !(spec.all (fun kv => guideUpdateFieldOk kv.1 kv.2)) then
    .error (.ValidationError "value error")
  else if guideUpdateAllowedKeys.all (fun k => ((spec.lookup k).getD .null).isNull) then
    .error (.ValidationError "At least one field must be provided for update")
  else .ok ()

/-- One field of `model_dump(mode="json", exclude_unset=True, exclude_none=True)`. -/
def pickField (d : Doc) (k : String) : Doc :=
  match d.lookup k with
  | some v => if v.isNull then [] else [(k, v)]
  | none => []

/-- `model_dump(mode="json", exclude_unset=True, exclude_none=True)` of a
validated update object: the explicitly-set, non-`None` fields, in field
declaration order. -/
def guideUpdateDump (spec : Doc) : Doc :=
  guideUpdateAllowedKeys.flatMap (pickField spec)

/-! #### Artifact creation schema (`ArtifactCreationSchema`, schemas.py:160-181)

`extra="forbid"`; required `parent_urn`/`title`/`file_url`/`file_type` and a
non-negative `file_size`; optional `description`/`language`. -/

structure ArtifactCreationData where
  parent_urn : String
  title : String
  description : Option String
  language : Option String
  file_url : String
  file_type : String
  file_size : Int

def artifactCreationFields : List String :=
  ["parent_urn", "title", "description", "language", "file_url", "file_type", "file_size"]

def optNullableNonEmpty : Option JVal → Bool
  | none => true
  | some .null => true
  | some (.str s) => isNonEmptyStr s
  | some _ => false

def optNullableLang : Option JVal → Bool
  | none => true
  | some .null => true
  | some (.str s) => isLang s
  | some _ => false

def jOptStr : Option JVal → Option String
  | some (.str s) => some s
  | _ => none

def artifactCreationValidate (spec : Doc) : Except PyErr ArtifactCreationData :=
  if !(spec.keys.all (fun k => artifactCreationFields.contains k)) then
    .error (.ValidationError "extra inputs are not permitted")
  else
    match spec.lookup "parent_urn", spec.lookup "title", spec.lookup "file_url",
          spec.lookup "file_type", spec.lookup "file_size" with
    | some (.str pu), some (.str t), some (.str fu), some (.str ft), some (.int fs) =>
        if isUrnStr pu && isNonEmptyStr t && isHttpUrl fu && (0 ≤ fs) &&
           optNullableNonEmpty (spec.lookup "description") &&
           optNullableLang (spec.lookup "language") then
          .ok { parent_urn := pu, title := t,
                description := jOptStr (spec.lookup "description"),
                language := jOptStr (spec.lookup "language"),
                file_url := fu, file_type := ft, file_size := fs }
        else .error (.ValidationError "value error")
    | _, _, _, _, _ => .error (.ValidationError "field required")

/-- `model_dump(mode="json")` of a validated artifact creation object, in
field declaration order. -/
def artifactCreationDump (a : ArtifactCreationData) : Doc :=
  [("parent_urn", .str a.parent_urn), ("title", .str a.title),
   ("description", optStr a.description), ("language", optStr a.language),
   ("file_url", .str a.file_url), ("file_type", .str a.file_type),
   ("file_size", .int a.file_size)]

/-! #### Organization update schema

Modelled from the spec: `OrganizationUpdateSchema` is imported by
`src/entities/organizations.py` but `src/schemas.py` in this tree does not
define it (spec section 4.12 notes the organization schemas' precise field
list is not present and must mirror the organization index mapping of
section 4.9, with the guide update schema's shape: all fields optional,
extra fields forbidden, at least one field required). -/

def orgUpdateFields : List String :=
  ["title", "description", "url", "contact_email", "image_url", "status"]

def orgUpdateFieldOk : String → JVal → Bool
  | _, .null => true
  | "title", .str s => isNonEmptyStr s
  | "description", .str s => isNonEmptyStr s
  | "url", .str s => isHttpUrl s
  | "contact_email", .str _ => true
  | "image_url", .str s => isHttpUrl s
  | "status", .str s => isStatus s
  | _, _ => false

def orgUpdateValidate (spec : Doc) : Except PyErr Unit :=
  if !(spec.keys.all (fun k => orgUpdateFields.contains k)) then
    .error (.ValidationError "extra inputs are not permitted")
  else if !(spec.all (fun kv => orgUpdateFieldOk kv.1 kv.2)) then
    .error (.ValidationError "value error")
  else if orgUpdateFields.all (fun k => ((spec.lookup k).getD .null).isNull) then
    .error (.ValidationError "At least one field must be provided for update")
  else .ok ()

/-- `org_data.model_dump(mode="json")` — WITHOUT `exclude_unset`: every
schema field appears, unset fields as `null`. -/
def orgUpdateFullDump (spec : Doc) : Doc :=
  orgUpdateFields.map (fun k => (k, (spec.lookup k).getD .null))

/-! ### Artifact entity (`src/entity.py`, class `Artifact`) -/

namespace Artifact

/-- `Artifact.MAX_FILE_SIZE` (entity.py:415). -/
def maxFileSize : Nat := 1073741824

/-- A value equality check `lookup = some (str t)`, used for the
`parent_urn` filter query of `Artifact.fetch`. -/
def jEqStr : Option JVal → String → Bool
  | some (.str s), t => s == t
  | _, _ => false

/-- `Artifact.fetch` (entity.py:422-440): pre-checks the parent through
`validate_existence` (rewrapping `NotFoundError`), then queries the
persistence client for artifacts whose `parent_urn` matches, capped at 1000
results.  The filter query is evaluated here under the store's contract
(spec sections 4.8 and 6.1). -/
def fetch (st : St) (parent_urn : String) : St × Except PyErr (List Doc) :=
  match Entity.validate_existence st parent_urn with
  | .error (.NotFoundError _) =>
      (st, .error (.NotFoundError ("Parent entity " ++ parent_urn ++ " not found.")))
  | .error e => (st, .error e)
  | .ok st1 =>
      (st1, .ok (((st1.artifacts.map Prod.snd).filter
        (fun d => jEqStr (d.lookup "parent_urn") parent_urn)).take 1000))

/-- `Artifact.get` (entity.py:453-457): point lookup by id. -/
def get (st : St) (urn : String) : Except PyErr Doc :=
  match ELASTIC.get_entity st.artifacts urn with
  | none => .error (.NotFoundError ("Artifact with ID " ++ urn ++ " not found."))
  | some entity => .ok entity

/-- `Entity.get_identifier` for the artifact entity (entity.py:170-184):
UUID-shaped identifiers address the artifact directly. -/
def get_identifier (idv : String) : String :=
  if is_valid_uuid idv then idv
  else if pyStartsWith idv "urn:artifact:" then idv
  else "urn:artifact:" ++ idv

/-- `Entity.get_entity` for artifacts: caching is off (see
`Entity.invalidate_cache`), so this is `get` followed by dump-schema
re-serialization (identity on stored documents). -/
def get_entity (st : St) (idv : String) : St × Except PyErr Doc :=
  (st, get st (get_identifier idv))

/-- `Artifact.create` (entity.py:470-492): validates the spec, pre-checks
the parent (`validate_existence` — which never raises `NotFoundError`),
invalidates the parent cache, stamps system fields, and indexes the
document; any indexing failure is wrapped into `InternalError`.  Returns the
generated id. -/
def create (st : St) (spec : Doc) (creator : String) : St × Except PyErr String :=
  match artifactCreationValidate spec with
  | .error e => (st, .error (.DataError ("Invalid data for creating artifact: " ++ e.msg)))
  | .ok a =>
      match Entity.validate_existence st a.parent_urn with
      | .error e => (st, .error e)
      | .ok st1 =>
          let st2 := Entity.invalidate_cache st1 a.parent_urn
          let d0 := (artifactCreationDump a).set "creator" (.str creator)
          let (d1, st3) := Entity.upsert_system_fields "artifact" d0 false st2
          match ELASTIC.index_entity st3.artifacts d1 with
          | .error e =>
              (st3, .error (.InternalError ("Failed to create artifact: " ++ e.msg)))
          | .ok idx =>
              ({ st3 with artifacts := idx },
               match d1.lookup "id" with
               | some (.str i) => .ok i
               | _ => .error (.KeyError "id"))

/-- MinIO `remove_object` plus the surrounding `except` (entity.py:600-605):
when removal fails the failure is logged only; the bucket keeps the object. -/
def cleanupObject (st : St) (objectName : String) : St :=
  if st.minioRemoveFaulty then st
  else { st with minio := st.minio.filter (fun p => p.1 != objectName) }

/-- The `try create / get_entity ... except: cleanup; raise` tail of
`Artifact.upload` (entity.py:595-606): on any failure after the object was
stored, the object's removal is attempted (best effort) and the original
error is re-raised unchanged. -/
def uploadFinish (st : St) (objectName : String) (artifact_spec : Doc)
    (creator : String) : St × Except PyErr Doc :=
  match create st artifact_spec creator with
  | (st1, .ok artifactId) =>
      match get_entity st1 artifactId with
      | (st2, .ok doc) => (st2, .ok doc)
      | (st2, .error e) => (cleanupObject st2 objectName, .error e)
  | (st1, .error e) => (cleanupObject st1 objectName, .error e)

structure UploadFile where
  filename : String
  content_type : Option String

/-- `Path(filename).suffix.lower()`. -/
def suffixLower (filename : String) : String :=
  match pySplit filename '.' with
  | [] => ""
  | [_] => ""
  | first :: rest =>
      if first = "" then "" else "." ++ pyLower (pyLast rest)

/-- Python `title or file.filename` (`None` and `""` are falsy). -/
def pyOrStr (v : Option String) (dflt : String) : String :=
  match v with
  | some s => if s = "" then dflt else s
  | none => dflt

/-- `Artifact.upload` (entity.py:494-606).  Size validation (empty and
above-cap files are `DataError`s, the cap message carrying both byte counts
comma-formatted), parent pre-check via `validate_existence` (rewrapping
`NotFoundError`), fresh UUID and object name, object upload, artifact spec
construction, then metadata creation with compensating cleanup. -/
def upload (st : St) (file : UploadFile) (fileSize : Nat) (parent_urn : String)
    (title description language : Option String) (creator : String) :
    St × Except PyErr Doc :=
  if fileSize = 0 then
    (st, .error (.DataError "Cannot upload empty file"))
  else if maxFileSize < fileSize then
    (st, .error (.DataError ("File size (" ++ fmtComma fileSize ++
      " bytes) exceeds maximum allowed size of " ++ fmtComma maxFileSize ++
      " bytes (1GB)")))
  else
    match Entity.validate_existence st parent_urn with
    | .error (.NotFoundError _) =>
        (st, .error (.NotFoundError ("Parent entity " ++ parent_urn ++ " not found.")))
    | .error e => (st, .error e)
    | .ok st1 =>
        let (uploadId, st2) := freshUuid st1
        let uniqueFilename := uploadId ++ suffixLower file.filename
        let contentType := pyOrStr file.content_type "application/octet-stream"
        let parentParts := pySplit parent_urn ':'
        let objectName :=
          if 3 ≤ parentParts.length then
            (parentParts.get? 1).getD "" ++ "/" ++ (parentParts.get? 2).getD "" ++
              "/" ++ uniqueFilename
          else "artifacts/" ++ uniqueFilename
        let st3 := { st2 with minio := st2.minio ++ [(objectName, fileSize)] }
        let fileUrl := st3.appExtDomain ++ st3.contextPath ++
          "/api/v1/artifacts/" ++ uploadId ++ "/download"
        let fileS3Url := "s3://" ++ st3.bucket ++ "/" ++ objectName
        let artifact_spec : Doc :=
          [("id", .str uploadId), ("parent_urn", .str parent_urn),
           ("type", .str "file"),
           ("title", .str (pyOrStr title file.filename)),
           ("description", optStr description), ("language", optStr language),
           ("file_url", .str fileUrl), ("file_s3_url", .str fileS3Url),
           ("file_type", .str contentType), ("file_size", .int fileSize)]
        uploadFinish st3 objectName artifact_spec creator

end Artifact

/-! ### Guide entity (`src/entities/guides.py`) -/

namespace Guide

/-- `Guide.get` (guides.py:61-69): point lookup, `NotFoundError` when
absent, otherwise the guide with its artifacts attached. -/
def get (st : St) (urn : String) : St × Except PyErr Doc :=
  match ELASTIC.get_entity st.guides urn with
  | none => (st, .error (.NotFoundError ("Guide with URN " ++ urn ++ " not found.")))
  | some entity =>
      match Artifact.fetch st urn with
      | (st1, .ok arts) => (st1, .ok (entity.set "artifacts" (.arr (arts.map JVal.obj))))
      | (st1, .error e) => (st1, .error e)

/-- `Guide.create` (guides.py:71-95): validates the creation spec (embedded
as the validated record), then
`try: validate_existence("urn:guide:" + slug); raise ConflictError
except NotFoundError: pass`, and only in the `NotFoundError` case dumps,
stamps system fields and indexes the document. -/
def create (st : St) (spec : GuideCreationData) (creator : String) :
    St × Except PyErr Unit :=
  match Entity.validate_existence st ("urn:guide:" ++ spec.urn) with
  | .error (.NotFoundError _) =>
      let d0 := (guideCreationDump spec).set "creator" (.str creator)
      let (d1, st1) := Entity.upsert_system_fields "guide" d0 false st
      match ELASTIC.index_entity st1.guides d1 with
      | .error e => (st1, .error (.InternalError ("Failed to create guide: " ++ e.msg)))
      | .ok idx => ({ st1 with guides := idx }, .ok ())
  | .error e => (st, .error e)
  | .ok st1 =>
      (st1, .error (.ConflictError ("Guide with URN " ++ spec.urn ++ " already exists.")))

/-- `Guide.patch` (guides.py:97-118): validates the update spec, calls
`validate_existence(urn)`, dumps the explicitly-set non-`None` fields,
re-stamps system fields (update mode), forces `urn`, and issues a partial
merge-update; store failures wrap into `InternalError`. -/
def patch (st : St) (urn : String) (spec : Doc) : St × Except PyErr Unit :=
  match guideUpdateValidate spec with
  | .error e => (st, .error (.DataError ("Invalid data for updating guide: " ++ e.msg)))
  | .ok _ =>
      match Entity.validate_existence st urn with
      | .error e => (st, .error e)
      | .ok st1 =>
          let gd := guideUpdateDump spec
          let (gd1, st2) := Entity.upsert_system_fields "guide" gd true st1
          let gd2 := gd1.set "urn" (.str urn)
          match ELASTIC.update_entity st2.guides gd2 with
          | .error e =>
              (st2, .error (.InternalError ("Failed to update guide: " ++ e.msg)))
          | .ok idx => ({ st2 with guides := idx }, .ok ())

end Guide

/-! ### Organization entity (`src/entities/organizations.py`) -/

namespace Organization

/-- `Organization.patch` (organizations.py:81-101): validates the update
spec, calls `validate_existence("urn:organization:" + urn)` (a no-op for
non-guide URNs), dumps the validated object WITHOUT `exclude_unset` (unset
fields become `null`), re-stamps system fields (update mode), forces `urn`,
and persists through `index_entity` — a full document replacement, not a
partial update. -/
def patch (st : St) (urn : String) (spec : Doc) : St × Except PyErr Unit :=
  match orgUpdateValidate spec with
  | .error e => (st, .error (.DataError ("Invalid organization update spec: " ++ e.msg)))
  | .ok _ =>
      match Entity.validate_existence st ("urn:organization:" ++ urn) with
      | .error e => (st, .error e)
      | .ok st1 =>
          let od := orgUpdateFullDump spec
          let (od1, st2) := Entity.upsert_system_fields "organization" od true st1
          let od2 := od1.set "urn" (.str urn)
          match ELASTIC.index_entity st2.organizations od2 with
          | .error e =>
              (st2, .error (.InternalError ("Failed to update organization: " ++ e.msg)))
          | .ok idx => ({ st2 with organizations := idx }, .ok ())

/-- `Entity.resolve_urn` for the organization collection (entity.py:210-225):
looks up the URN of the document whose `id` equals the given UUID; any
failure (including no match) surfaces as `NotFoundError`. -/
def resolve_urn (st : St) (uuidStr : String) : Except PyErr String :=
  match (st.organizations.map Prod.snd).find?
      (fun d => Artifact.jEqStr (d.lookup "id") uuidStr) with
  | some d =>
      match d.lookup "urn" with
      | some (.str u) => .ok u
      | _ => .error (.NotFoundError ("Failed to resolve URN for UUID " ++ uuidStr))
  | none => .error (.NotFoundError ("Failed to resolve URN for UUID " ++ uuidStr))

/-- `Entity.get_identifier` for the organization entity (entity.py:170-184). -/
def get_identifier (st : St) (idv : String) : Except PyErr String :=
  if is_valid_uuid idv then resolve_urn st idv
  else if pyStartsWith idv "urn:organization:" then .ok idv
  else .ok ("urn:organization:" ++ idv)

/-- `Organization.delete` is declared as `def delete(self):`
(organizations.py:114-115) — it takes NO identifier parameter — while the
base bundler `Entity.delete_entity` (entity.py:285-294) invokes
`self.delete(identifier)` with one positional argument.  We model the Python
call `self.delete(*args)`: a call whose arity does not match the declaration
raises `TypeError` before the body runs; a matching (zero-argument) call
runs the body, which raises `NotImplementedError` unconditionally. -/
def deleteCall (st : St) (args : List String) : St × Except PyErr Unit :=
  if args.length ≠ 0 then
    (st, .error (.TypeError "delete() takes 1 positional argument but 2 were given"))
  else
    (st, .error (.NotImplementedError "Organization deletion is not supported."))

/-- `Entity.delete_entity` (entity.py:285-294) specialised to the
organization entity: normalize the identifier, invalidate the cache, then
delegate to the subclass `delete` with the identifier argument. -/
def delete_entity (st : St) (urn : String) : St × Except PyErr Unit :=
  match get_identifier st urn with
  | .error e => (st, .error e)
  | .ok identifier =>
      let st1 := Entity.invalidate_cache st identifier
      deleteCall st1 [identifier]

end Organization

/-! ### Legacy prototype keyword search (`app/service.py`, `Stores.search`) -/

namespace Stores

inductive EsQuery where
  | matchAll
  | multiMatch (q : String) (fields : List String)

structure EsBody where
  size : Nat
  query : EsQuery

/-- The query body built by `Stores.search` (service.py:65-82). -/
def searchBody (q : String) (k : Nat) : EsBody :=
  if q = "*" then { size := k, query := .matchAll }
  else
    { size := k,
      query := .multiMatch q ["title^3", "description", "ingredients.name", "tags"] }

/-- `_source_excludes` passed by `Stores.search` (service.py:83). -/
def legacySourceExcludes : List String := ["embedding", "embedding_hint"]

/-- Strip an Elasticsearch field boost suffix: `"title^3"` names field
`title` (weight 3). -/
def stripBoost (f : String) : String :=
  ((pySplit f '^').head?).getD ""

/-- Values addressed by a (possibly dotted, e.g. `ingredients.name`) field
path inside a document; part of the external store's query contract. -/
def fieldValues (d : Doc) (path : String) : List JVal :=
  match pySplit path '.' with
  | [k] => match d.lookup k with | some v => [v] | none => []
  | [k1, k2] =>
      match d.lookup k1 with
      | some (.arr xs) =>
          xs.filterMap (fun x => match x with | .obj dd => Doc.lookup dd k2 | _ => none)
      | some (.obj dd) => (match dd.lookup k2 with | some v => [v] | none => [])
      | _ => []
  | _ => []

/-- Full-text match contract for one field value: the query matches a string
equal to it or containing it as a whitespace token; on an array, any string
element may match. -/
def strMatches (s q : String) : Bool :=
  s == q || (pySplit s ' ').contains q

def textMatches : JVal → String → Bool
  | .str s, q => strMatches s q
  | .arr xs, q =>
      xs.any (fun x => match x with | .str s => strMatches s q | _ => false)
  | _, _ => false

def queryMatches : EsQuery → Doc → Bool
  | .matchAll, _ => true
  | .multiMatch q fields, d =>
      fields.any (fun f => (fieldValues d (stripBoost f)).any (fun v => textMatches v q))

/-- The store's evaluation of a search request (spec sections 4.8 and 6.1):
matched documents, capped at `size` hits, with the excluded fields removed
from every returned body. -/
def esSearch (idx : List Doc) (body : EsBody) (excludes : List String) : List Doc :=
  ((idx.filter (fun d => queryMatches body.query d)).take body.size).map
    (fun d => d.dropKeys excludes)

/-- `Stores.search` (service.py:65-84): builds the body (match-all for the
literal `"*"`, else the weighted multi-field match) and queries with
`embedding`/`embedding_hint` excluded from returned sources. -/
def search (idx : List Doc) (q : String) (k : Nat) : List Doc :=
  esSearch idx (searchBody q k) legacySourceExcludes

end Stores

/-! ### Concrete inputs used by the claim theorems -/

/-- A process state with empty stores and default configuration. -/
def emptySt : St :=
  { guides := [], organizations := [], artifacts := [], minio := [],
    minioRemoveFaulty := false, ticks := 0, uuidSeq := 0,
    bucket := "wisefood", appExtDomain := "https://api.wisefood.gr",
    contextPath := "" }

/-- A valid guide creation payload (slug plus content fields). -/
def sampleGuideSpec : GuideCreationData :=
  { urn := "nutrition-basics", title := "Nutrition Basics",
    description := "A dietary guide.", tags := [], status := "active",
    url := "https://example.org/guides/nutrition-basics",
    license := "CC-BY-4.0", region := none, publication_date := none,
    content := "Eat vegetables.", topic := none, audience := none,
    language := none, artifacts := [] }

/-- A valid artifact creation payload whose parent URN resolves to nothing
in `emptySt` (the router hands exactly this dump to the entity). -/
def orphanArtifactSpec : Doc :=
  [("parent_urn", .str "urn:guide:missing-parent"), ("title", .str "Data sheet"),
   ("description", .null), ("language", .null),
   ("file_url", .str "https://example.org/files/ds.pdf"),
   ("file_type", .str "application/pdf"), ("file_size", .int 10)]

def sampleUploadFile : Artifact.UploadFile :=
  { filename := "ds.pdf", content_type := some "application/pdf" }

/-- A persisted parent guide document. -/
def parentGuideDoc : Doc :=
  [("urn", .str "urn:guide:parent"), ("id", .str (mkUuid 77)),
   ("title", .str "Parent guide"), ("description", .str "A guide."),
   ("creator", .str "alice"), ("created_at", .str "t0"), ("updated_at", .str "t0"),
   ("status", .str "active")]

/-- A state whose guides collection holds `urn:guide:parent`. -/
def parentSt : St := { emptySt with guides := [("urn:guide:parent", parentGuideDoc)] }

/-- A valid artifact creation payload addressing the existing parent. -/
def childArtifactSpec : Doc :=
  [("parent_urn", .str "urn:guide:parent"), ("title", .str "Data sheet"),
   ("description", .null), ("language", .null),
   ("file_url", .str "https://example.org/files/ds.pdf"),
   ("file_type", .str "application/pdf"), ("file_size", .int 10)]

/-- A persisted organization document. -/
def acmeOrgDoc : Doc :=
  [("urn", .str "urn:organization:acme"), ("id", .str (mkUuid 42)),
   ("title", .str "Acme"), ("description", .str "Widget maker"),
   ("url", .str "https://acme.example.org"), ("creator", .str "bob"),
   ("created_at", .str "t0"), ("updated_at", .str "t0"), ("status", .str "active")]

/-- A state whose organizations collection holds `urn:organization:acme`. -/
def acmeSt : St :=
  { emptySt with organizations := [("urn:organization:acme", acmeOrgDoc)] }

/-- An organization patch payload setting only `title`. -/
def acmeTitlePatch : Doc := [("title", .str "Acme Corp")]

/-- Legacy recipe documents carrying embedding fields (for the keyword
search claim). -/
def legacyDoc1 : Doc :=
  [("urn", .str "urn:recipe:salad"), ("title", .str "Green salad"),
   ("description", .str "A fresh salad"), ("tags", .arr [.str "vegan"]),
   ("ingredients", .arr [.obj [("name", .str "lettuce"), ("quantity", .str "1")]]),
   ("embedding", .arr [.int 1]), ("embedding_hint", .str "salad")]

def legacyDoc2 : Doc :=
  [("urn", .str "urn:recipe:roast"), ("title", .str "Sunday roast"),
   ("description", .str "A roast"), ("tags", .arr [.str "meat"]),
   ("ingredients", .arr [.obj [("name", .str "beef"), ("quantity", .str "2")]]),
   ("embedding", .arr [.int 2]), ("embedding_hint", .str "roast")]

/-! ## Claim theorems -/

/-- C1: the claim fails on the code.  For a valid creation spec whose URN is
NOT present in the (empty) guides collection, `Guide.create` nevertheless
raises `ConflictError`: `Entity.validate_existence` only invalidates the
cache and never raises `NotFoundError`, so the `except NotFoundError: pass`
arm that persists the guide is unreachable and the `raise ConflictError`
after the existence pre-check always fires. -/
theorem guide_create_conflicts_without_existing_guide :
    guideCreationValid sampleGuideSpec = true ∧
    emptySt.guides.getDoc "urn:guide:nutrition-basics" = none ∧
    (Guide.create emptySt sampleGuideSpec "alice").2 =
      .error (.ConflictError "Guide with URN nutrition-basics already exists.") :=
  ⟨rfl, rfl, rfl⟩

/-- C2: the claim fails on the code.  With an empty store (so the parent URN
`urn:guide:missing-parent` resolves to no resource), artifact creation does
NOT fail with `NotFoundError`: `Entity.validate_existence` never raises, the
operation proceeds to persistence and dies there with `InternalError`
(missing `urn` document id).  An upload to the same nonexistent parent first
stores the file bytes, then fails metadata creation with `DataError` (the
spec built by `upload` carries keys the creation schema forbids) — again not
`NotFoundError` — and only the compensating cleanup leaves storage empty. -/
theorem artifact_orphan_parent_not_notfound :
    (Artifact.create emptySt orphanArtifactSpec "bob").2 =
      .error (.InternalError "Failed to create artifact: 'urn'") ∧
    (Artifact.upload emptySt sampleUploadFile 100 "urn:guide:missing-parent"
        none none none "bob").2 =
      .error (.DataError "Invalid data for creating artifact: extra inputs are not permitted") ∧
    (Artifact.upload emptySt sampleUploadFile 100 "urn:guide:missing-parent"
        none none none "bob").1.minio = [] :=
  ⟨rfl, rfl, rfl⟩

/-- C4: the claim fails on the code for artifacts.  The persistence client
does store any `urn`-carrying document under its URN (first conjunct, a
concrete guide document), but `index_entity` reads `document["urn"]`
unconditionally and artifact documents carry no `urn` — so `Artifact.create`
with a valid spec and an existing parent never persists the record under its
generated id: the `KeyError` is wrapped into `InternalError` and the
artifacts collection stays empty. -/
theorem index_entity_keys_by_urn_but_artifact_create_fails :
    ELASTIC.index_entity [] parentGuideDoc = .ok [("urn:guide:parent", parentGuideDoc)] ∧
    (Artifact.create parentSt childArtifactSpec "bob").2 =
      .error (.InternalError "Failed to create artifact: 'urn'") ∧
    (Artifact.create parentSt childArtifactSpec "bob").1.artifacts = [] :=
  ⟨rfl, rfl, rfl⟩

/-- C5: the claim fails on the code in its success half.  A file of exactly
1,073,741,824 bytes passes both size checks, but the upload then fails
anyway (`DataError`: the artifact spec built by `upload` carries keys the
creation schema forbids), so no upload ever succeeds.  One byte more fails
with the `DataError` whose message carries the actual and the maximum size
comma-formatted, and a zero-byte file fails with the empty-file
`DataError`. -/
theorem upload_size_validation_but_no_success :
    (Artifact.upload parentSt sampleUploadFile Artifact.maxFileSize "urn:guide:parent"
        (some "Big file") none none "bob").2 =
      .error (.DataError "Invalid data for creating artifact: extra inputs are not permitted") ∧
    (Artifact.upload parentSt sampleUploadFile (Artifact.maxFileSize + 1) "urn:guide:parent"
        (some "Big file") none none "bob").2 =
      .error (.DataError
        "File size (1,073,741,825 bytes) exceeds maximum allowed size of 1,073,741,824 bytes (1GB)") ∧
    (Artifact.upload parentSt sampleUploadFile 0 "urn:guide:parent"
        (some "Big file") none none "bob").2 =
      .error (.DataError "Cannot upload empty file") :=
  ⟨rfl, rfl, rfl⟩

/-- C7: the claim fails on the code.  Patching the stored organization
`urn:organization:acme` (whose `description` is `"Widget maker"` and which
carries `id`, `creator`, `created_at`) with a spec setting only `title`
REPLACES the whole document: the validated object is dumped without
`exclude_unset` (unset fields become `null`) and persisted through
`index_entity`, so `description` becomes `null` and `id`/`creator`/
`created_at` disappear instead of retaining their pre-patch values. -/
theorem organization_patch_replaces_document :
    acmeOrgDoc.lookup "description" = some (.str "Widget maker") ∧
    (Organization.patch acmeSt "urn:organization:acme" acmeTitlePatch).2 = .ok () ∧
    (Organization.patch acmeSt "urn:organization:acme" acmeTitlePatch).1.organizations =
      [("urn:organization:acme",
        [("title", .str "Acme Corp"), ("description", .null), ("url", .null),
         ("contact_email", .null), ("image_url", .null), ("status", .null),
         ("updated_at", .str "t0"), ("urn", .str "urn:organization:acme")])] :=
  ⟨rfl, rfl, rfl⟩

/-- C8: the claim fails on the code.  `Organization.delete` is declared with
no identifier parameter, so the delete operation invoked through the entity
API (`delete_entity`, which calls `self.delete(identifier)`) fails with
`TypeError` — not a not-allowed/not-implemented condition — even for an
existing organization; only a bare zero-argument call reaches the body's
`NotImplementedError`. -/
theorem organization_delete_entity_type_error :
    (Organization.delete_entity acmeSt "urn:organization:acme").2 =
      .error (.TypeError "delete() takes 1 positional argument but 2 were given") ∧
    (Organization.deleteCall acmeSt []).2 =
      .error (.NotImplementedError "Organization deletion is not supported.") :=
  ⟨rfl, rfl⟩

/-! ### Association-list lemmas shared by the remaining claim proofs -/

theorem Doc.lookup_set_self (d : Doc) (k : String) (v : JVal) :
    (d.set k v).lookup k = some v := by
  induction d with
  | nil => simp [Doc.set, Doc.lookup]
  | cons kv rest ih =>
      obtain ⟨a, b⟩ := kv
      by_cases h : a = k
      · simp [Doc.set, h, Doc.lookup]
      · simp [Doc.set, h, Doc.lookup, ih]

theorem Doc.lookup_set_ne (d : Doc) (k k' : String) (v : JVal) (h : k' ≠ k) :
    (d.set k v).lookup k' = d.lookup k' := by
  have hkk : k ≠ k' := Ne.symm h
  induction d with
  | nil => simp [Doc.set, Doc.lookup, hkk]
  | cons kv rest ih =>
      obtain ⟨a, b⟩ := kv
      by_cases hk : a = k
      · have h1 : a ≠ k' := by rw [hk]; exact hkk
        simp [Doc.set, hk, Doc.lookup, hkk, h1]
      · by_cases hk' : a = k'
        · simp [Doc.set, hk, Doc.lookup, hk', h, hkk]
        · simp [Doc.set, hk, Doc.lookup, hk', ih]

theorem Doc.lookup_erase_self (d : Doc) (k : String) :
    (d.erase k).lookup k = none := by
  induction d with
  | nil => simp [Doc.erase, Doc.lookup]
  | cons kv rest ih =>
      obtain ⟨a, b⟩ := kv
      by_cases h : a = k
      · simp [Doc.erase, h, ih]
      · simp [Doc.erase, h, Doc.lookup, ih]

theorem Doc.lookup_erase_ne (d : Doc) (k k' : String) (h : k' ≠ k) :
    (d.erase k).lookup k' = d.lookup k' := by
  induction d with
  | nil => simp [Doc.erase]
  | cons kv rest ih =>
      obtain ⟨a, b⟩ := kv
      by_cases hk : a = k
      · have h1 : a ≠ k' := by rw [hk]; exact Ne.symm h
        simp [Doc.erase, hk, Doc.lookup, h1, Ne.symm h, ih]
      · by_cases hk' : a = k'
        · simp [Doc.erase, hk, Doc.lookup, hk', h, ih]
        · simp [Doc.erase, hk, Doc.lookup, hk', ih]

theorem Doc.lookupLast_eq_none (d : Doc) (k : String) (h : d.lookup k = none) :
    d.lookupLast k = none := by
  induction d with
  | nil => simp [Doc.lookupLast]
  | cons kv rest ih =>
      obtain ⟨a, b⟩ := kv
      by_cases hk : a = k
      · simp [Doc.lookup, hk] at h
      · simp [Doc.lookup, hk] at h
        simp [Doc.lookupLast, ih h, hk]

theorem Doc.lookupLast_set_ne (d : Doc) (k k' : String) (v : JVal) (h : k' ≠ k) :
    (d.set k v).lookupLast k' = d.lookupLast k' := by
  have hkk : k ≠ k' := Ne.symm h
  induction d with
  | nil => simp [Doc.set, Doc.lookupLast, hkk]
  | cons kv rest ih =>
      obtain ⟨a, b⟩ := kv
      by_cases hk : a = k
      · have h1 : a ≠ k' := by rw [hk]; exact hkk
        simp [Doc.set, hk, Doc.lookupLast, hkk, h1]
      · simp [Doc.set, hk, Doc.lookupLast, ih]

theorem Doc.lookupLast_set_fresh (d : Doc) (k : String) (v : JVal)
    (h : d.lookup k = none) :
    (d.set k v).lookupLast k = some v := by
  induction d with
  | nil => simp [Doc.set, Doc.lookupLast]
  | cons kv rest ih =>
      obtain ⟨a, b⟩ := kv
      by_cases hk : a = k
      · simp [Doc.lookup, hk] at h
      · simp [Doc.lookup, hk] at h
        simp [Doc.set, hk, Doc.lookupLast, ih h]

theorem Doc.lookup_merge (old new : Doc) (k : String) :
    (Doc.merge old new).lookup k =
      match new.lookupLast k with
      | some v => some v
      | none => old.lookup k := by
  induction new generalizing old with
  | nil => simp [Doc.merge, Doc.lookupLast]
  | cons kv rest ih =>
      obtain ⟨a, b⟩ := kv
      have step : Doc.merge old ((a, b) :: rest) = Doc.merge (old.set a b) rest := by
        simp [Doc.merge]
      rw [step, ih]
      cases hrest : Doc.lookupLast rest k with
      | some w => simp [Doc.lookupLast, hrest]
      | none =>
          by_cases hk : a = k
          · subst hk
            simp [Doc.lookupLast, hrest, Doc.lookup_set_self]
          · simp [Doc.lookupLast, hrest, hk,
              Doc.lookup_set_ne old a k b (fun hh => hk hh.symm)]

theorem Doc.lookup_eq_none_of_keys_all (d : Doc) (p : String → Bool) (k : String)
    (h : d.keys.all p = true) (hk : p k = false) :
    d.lookup k = none := by
  induction d with
  | nil => simp [Doc.lookup]
  | cons kv rest ih =>
      obtain ⟨a, b⟩ := kv
      have hx : (a :: Doc.keys rest).all p = true := h
      rw [List.all_cons, Bool.and_eq_true] at hx
      by_cases hkk : a = k
      · rw [hkk] at hx
        rw [hx.1] at hk
        exact absurd hk (by simp)
      · simp only [Doc.lookup, if_neg hkk]
        exact ih hx.2

theorem Doc.lookup_append (a b : Doc) (k : String) :
    Doc.lookup (a ++ b) k =
      match a.lookup k with
      | some v => some v
      | none => b.lookup k := by
  induction a with
  | nil => simp [Doc.lookup]
  | cons kv rest ih =>
      obtain ⟨a1, b1⟩ := kv
      by_cases hk : a1 = k
      · simp [Doc.lookup, hk]
      · simp [Doc.lookup, hk, ih]

theorem Doc.lookup_pickField_ne (d : Doc) (k k' : String) (h : k' ≠ k) :
    (pickField d k).lookup k' = none := by
  unfold pickField
  cases d.lookup k with
  | none => simp [Doc.lookup]
  | some v =>
      by_cases hv : v.isNull
      · simp [hv, Doc.lookup]
      · simp [hv, Doc.lookup, Ne.symm h]

theorem Doc.lookup_fieldsDump_none (d : Doc) (ks : List String) (k : String)
    (hk : ks.contains k = false) :
    Doc.lookup (ks.flatMap (pickField d)) k = none := by
  induction ks with
  | nil => simp [Doc.lookup]
  | cons k1 rest ih =>
      rw [List.contains_cons, Bool.or_eq_false_iff] at hk
      have hne : k ≠ k1 := by
        intro hh
        rw [hh] at hk
        simpa using hk.1
      rw [List.flatMap_cons, Doc.lookup_append,
        Doc.lookup_pickField_ne d k1 k hne]
      exact ih hk.2

theorem Store.getDoc_putDoc_self (idx : Store) (k : String) (d : Doc) :
    (Store.putDoc idx k d).getDoc k = some d := by
  induction idx with
  | nil => simp [Store.putDoc, Store.getDoc]
  | cons kd rest ih =>
      obtain ⟨a, b⟩ := kd
      by_cases h : a = k
      · simp [Store.putDoc, h, Store.getDoc]
      · simp [Store.putDoc, h, Store.getDoc, ih]

theorem Doc.lookup_dropKeys_mem (d : Doc) (ks : List String) (k : String)
    (h : ks.contains k = true) :
    (d.dropKeys ks).lookup k = none := by
  induction d with
  | nil => simp [Doc.dropKeys, Doc.lookup]
  | cons kv rest ih =>
      obtain ⟨a, b⟩ := kv
      by_cases hc : a ∈ ks
      · simp only [Doc.dropKeys, List.filter_cons] at ih ⊢
        simpa [hc] using ih
      · have hne : a ≠ k := by
          intro hh
          rw [hh] at hc
          exact hc (by simpa using h)
        simp only [Doc.dropKeys, List.filter_cons] at ih ⊢
        simpa [hc, Doc.lookup, hne] using ih

theorem Doc.lookup_of_hasKey_false (d : Doc) (k : String) (h : d.hasKey k = false) :
    d.lookup k = none := by
  unfold Doc.hasKey at h
  cases hl : d.lookup k with
  | none => rfl
  | some v => rw [hl] at h; simp at h

/-- `upsert_system_fields` in update mode: strip `creator` when present,
stamp `updated_at` from the current clock, advance the clock. -/
theorem upsert_update_eq (n : String) (spec : Doc) (st : St) :
    Entity.upsert_system_fields n spec true st =
      ((if spec.hasKey "creator" then spec.erase "creator" else spec).set
          "updated_at" (.str ("t" ++ toString st.ticks)),
        { st with ticks := st.ticks + 1 }) := by
  simp [Entity.upsert_system_fields, nowIso]

/-- C6: confirmed.  `Artifact.uploadFinish` is the literal
`try: create ... except Exception: remove_object ...; raise` tail of
`Artifact.upload` (entity.py:595-606), entered right after the object was
stored.  Whenever artifact metadata creation fails with some error, the
upload re-raises exactly that error; when object removal works the stored
object is gone from the bucket, and when removal itself fails the failure is
only logged — the state is untouched and the caller still sees the original
error, never the cleanup failure. -/
theorem upload_cleanup_reraises_original_error (st : St) (objectName : String)
    (spec : Doc) (creator : String) (e : PyErr)
    (hfail : (Artifact.create st spec creator).2 = .error e) :
    (Artifact.uploadFinish st objectName spec creator).2 = .error e ∧
    ((Artifact.create st spec creator).1.minioRemoveFaulty = false →
      (Artifact.uploadFinish st objectName spec creator).1.minio =
        (Artifact.create st spec creator).1.minio.filter (fun p => p.1 != objectName)) ∧
    ((Artifact.create st spec creator).1.minioRemoveFaulty = true →
      (Artifact.uploadFinish st objectName spec creator).1 =
        (Artifact.create st spec creator).1) := by
  rcases hc : Artifact.create st spec creator with ⟨st1, r⟩
  rw [hc] at hfail
  simp only at hfail
  subst hfail
  unfold Artifact.uploadFinish
  rw [hc]
  refine ⟨rfl, ?_, ?_⟩
  · intro hf
    simp only at hf
    simp [Artifact.cleanupObject, hf]
  · intro hf
    simp only at hf
    simp [Artifact.cleanupObject, hf]

/-- Witness for C6 at a concrete failing creation: the original
`InternalError` from `Artifact.create` is re-raised and the stored object
`obj1` is removed from the bucket. -/
theorem upload_cleanup_reraises_original_error_witness :
    (Artifact.uploadFinish { parentSt with minio := [("obj1", 5)] } "obj1"
        childArtifactSpec "bob").2 =
      .error (.InternalError "Failed to create artifact: 'urn'") ∧
    (Artifact.uploadFinish { parentSt with minio := [("obj1", 5)] } "obj1"
        childArtifactSpec "bob").1.minio = [] := by
  have h := upload_cleanup_reraises_original_error
    { parentSt with minio := [("obj1", 5)] } "obj1" childArtifactSpec "bob"
    (.InternalError "Failed to create artifact: 'urn'") (by rfl)
  exact ⟨h.1, (h.2.1 (by rfl)).trans (by rfl)⟩

/-- Evaluation of `Guide.patch` on a validated spec against an existing
document: the stored document is merged with the dumped-and-stamped update
fields and the clock advances by the one `updated_at` stamp. -/
theorem guide_patch_eq (st2 : St) (urn : String) (d : Doc) (ty : String) (old : Doc)
    (hv : guideUpdateValidate d = .ok ())
    (hty : Entity.resolve_type urn = .ok ty)
    (hold : st2.guides.getDoc urn = some old) :
    Guide.patch st2 urn d =
      ({ st2 with
          ticks := st2.ticks + 1
          guides := st2.guides.putDoc urn (Doc.merge old (((guideUpdateDump d).set "updated_at" (.str ("t" ++ toString st2.ticks))).set "urn" (.str urn))) },
        .ok ()) := by
  have hgc : (guideUpdateDump d).hasKey "creator" = false := by
    unfold Doc.hasKey
    rw [show guideUpdateDump d = guideUpdateAllowedKeys.flatMap (pickField d) from rfl]
    rw [Doc.lookup_fieldsDump_none d guideUpdateAllowedKeys "creator" (by rfl)]
    rfl
  have hval : Entity.validate_existence st2 urn = .ok st2 := by
    unfold Entity.validate_existence Entity.invalidate_cache
    rw [hty]
    simp
  have hupd : ELASTIC.update_entity st2.guides
      (((guideUpdateDump d).set "updated_at"
          (.str ("t" ++ toString st2.ticks))).set "urn" (.str urn)) =
      .ok (st2.guides.putDoc urn (Doc.merge old
        (((guideUpdateDump d).set "updated_at"
            (.str ("t" ++ toString st2.ticks))).set "urn" (.str urn)))) := by
    unfold ELASTIC.update_entity
    rw [Doc.lookup_set_self]
    simp only [jvalIdStr]
    rw [hold]
  unfold Guide.patch
  rw [hv, hval]
  simp only []
  rw [upsert_update_eq]
  simp only [hgc, Bool.false_eq_true, if_false]
  rw [hupd]

/-- C9: confirmed.  (a) `upsert_system_fields` in update mode strips any
client-supplied `creator`, leaves `created_at` exactly as it was, and always
re-stamps `updated_at` to the current instant.  (b) A spec accepted by the
update schema can carry none of the system-stamped fields (`creator`,
`created_at`, `id`, `urn` are all rejected by `extra="forbid"`).  (c) Along
the full guide patch pipeline (validated spec, existing document, partial
merge-update), the persisted document keeps its pre-patch `created_at` and
`creator` and gets a freshly stamped `updated_at`. -/
theorem update_never_accepts_system_fields
    (n : String) (spec : Doc) (st : St)
    (d : Doc) (st2 : St) (urn : String) (ty : String) (old : Doc)
    (hv : guideUpdateValidate d = .ok ())
    (hty : Entity.resolve_type urn = .ok ty)
    (hold : st2.guides.getDoc urn = some old) :
    ((Entity.upsert_system_fields n spec true st).1.lookup "creator" = none ∧
     (Entity.upsert_system_fields n spec true st).1.lookup "created_at" =
       spec.lookup "created_at" ∧
     (Entity.upsert_system_fields n spec true st).1.lookup "updated_at" =
       some (.str ("t" ++ toString st.ticks))) ∧
    (d.lookup "creator" = none ∧ d.lookup "created_at" = none ∧
     d.lookup "id" = none ∧ d.lookup "urn" = none) ∧
    ((Guide.patch st2 urn d).2 = .ok () ∧
     ∃ post, (Guide.patch st2 urn d).1.guides.getDoc urn = some post ∧
       post.lookup "created_at" = old.lookup "created_at" ∧
       post.lookup "creator" = old.lookup "creator" ∧
       post.lookup "updated_at" = some (.str ("t" ++ toString st2.ticks))) := by
  have stripped : ∀ dd : Doc,
      (if dd.hasKey "creator" then dd.erase "creator" else dd).lookup "creator" = none := by
    intro dd
    by_cases hck : dd.hasKey "creator"
    · simp only [hck, if_true]
      exact Doc.lookup_erase_self dd "creator"
    · simp only [hck, if_false]
      exact Doc.lookup_of_hasKey_false dd "creator" (by simpa using hck)
  have strippedKeep : ∀ (dd : Doc) (k : String), k ≠ "creator" →
      (if dd.hasKey "creator" then dd.erase "creator" else dd).lookup k = dd.lookup k := by
    intro dd k hk
    by_cases hck : dd.hasKey "creator"
    · simp only [hck, if_true]
      exact Doc.lookup_erase_ne dd "creator" k hk
    · simp only [hck]
      rfl
  have hkeys : d.keys.all (fun k => guideUpdateAllowedKeys.contains k) = true := by
    by_contra hcon
    have hfalse : d.keys.all (fun k => guideUpdateAllowedKeys.contains k) = false :=
      Bool.eq_false_iff.mpr hcon
    unfold guideUpdateValidate at hv
    rw [hfalse] at hv
    simp at hv
  refine ⟨⟨?_, ?_, ?_⟩, ⟨?_, ?_, ?_, ?_⟩, ?_, ?_⟩
  · rw [upsert_update_eq]
    simp only []
    rw [Doc.lookup_set_ne _ _ _ _ (by decide)]
    exact stripped spec
  · rw [upsert_update_eq]
    simp only []
    rw [Doc.lookup_set_ne _ _ _ _ (by decide)]
    exact strippedKeep spec "created_at" (by decide)
  · rw [upsert_update_eq]
    simp only []
    exact Doc.lookup_set_self _ "updated_at" _
  · exact Doc.lookup_eq_none_of_keys_all d _ "creator" hkeys (by rfl)
  · exact Doc.lookup_eq_none_of_keys_all d _ "created_at" hkeys (by rfl)
  · exact Doc.lookup_eq_none_of_keys_all d _ "id" hkeys (by rfl)
  · exact Doc.lookup_eq_none_of_keys_all d _ "urn" hkeys (by rfl)
  · rw [guide_patch_eq st2 urn d ty old hv hty hold]
  · rw [guide_patch_eq st2 urn d ty old hv hty hold]
    simp only []
    refine ⟨_, Store.getDoc_putDoc_self _ urn _, ?_, ?_, ?_⟩
    · rw [Doc.lookup_merge]
      rw [Doc.lookupLast_eq_none]
      rw [Doc.lookup_set_ne _ _ _ _ (by decide),
          Doc.lookup_set_ne _ _ _ _ (by decide)]
      exact Doc.lookup_fieldsDump_none d guideUpdateAllowedKeys "created_at" (by rfl)
    · rw [Doc.lookup_merge]
      rw [Doc.lookupLast_eq_none]
      rw [Doc.lookup_set_ne _ _ _ _ (by decide),
          Doc.lookup_set_ne _ _ _ _ (by decide)]
      exact Doc.lookup_fieldsDump_none d guideUpdateAllowedKeys "creator" (by rfl)
    · have hnone : (guideUpdateDump d).lookup "updated_at" = none :=
        Doc.lookup_fieldsDump_none d guideUpdateAllowedKeys "updated_at" (by rfl)
      rw [Doc.lookup_merge]
      rw [Doc.lookupLast_set_ne _ _ _ _ (by decide),
          Doc.lookupLast_set_fresh (guideUpdateDump d) "updated_at" _ hnone]

/-- Witness for C9 at a concrete update: a spec carrying `creator` and
`created_at` loses them on stamping while `updated_at` is set; the validated
patch `{title: "New title"}` on the stored parent guide keeps `created_at`
and `creator` and re-stamps `updated_at`. -/
theorem update_never_accepts_system_fields_witness :
    ((Entity.upsert_system_fields "guide"
        [("creator", .str "eve"), ("created_at", .str "t9"), ("title", .str "x")]
        true emptySt).1.lookup "creator" = none ∧
     (Entity.upsert_system_fields "guide"
        [("creator", .str "eve"), ("created_at", .str "t9"), ("title", .str "x")]
        true emptySt).1.lookup "created_at" =
       Doc.lookup [("creator", .str "eve"), ("created_at", .str "t9"), ("title", .str "x")]
         "created_at" ∧
     (Entity.upsert_system_fields "guide"
        [("creator", .str "eve"), ("created_at", .str "t9"), ("title", .str "x")]
        true emptySt).1.lookup "updated_at" =
       some (.str ("t" ++ toString emptySt.ticks))) ∧
    (Doc.lookup [("title", .str "New title")] "creator" = none ∧
     Doc.lookup [("title", .str "New title")] "created_at" = none ∧
     Doc.lookup [("title", .str "New title")] "id" = none ∧
     Doc.lookup [("title", .str "New title")] "urn" = none) ∧
    ((Guide.patch parentSt "urn:guide:parent" [("title", .str "New title")]).2 = .ok () ∧
     ∃ post, (Guide.patch parentSt "urn:guide:parent"
         [("title", .str "New title")]).1.guides.getDoc "urn:guide:parent" = some post ∧
       post.lookup "created_at" = parentGuideDoc.lookup "created_at" ∧
       post.lookup "creator" = parentGuideDoc.lookup "creator" ∧
       post.lookup "updated_at" = some (.str ("t" ++ toString parentSt.ticks))) :=
  update_never_accepts_system_fields "guide"
    [("creator", .str "eve"), ("created_at", .str "t9"), ("title", .str "x")]
    emptySt [("title", .str "New title")] parentSt "urn:guide:parent" "guide"
    parentGuideDoc (by rfl) (by rfl) (by rfl)

/-- C10: confirmed.  The legacy keyword search issues a match-all body of
size `k` for the literal `"*"` query, returning (up to exclusions) the first
`k` documents of the collection; any other query issues a multi-field match
restricted to `title` (boosted 3x), `description`, `ingredients.name` and
`tags`; in both cases at most `k` documents come back and neither
`embedding` nor `embedding_hint` survives into any returned document. -/
theorem legacy_keyword_search_contract (idx : List Doc) (q : String) (k : Nat) :
    (q = "*" →
      Stores.searchBody q k = { size := k, query := .matchAll } ∧
      Stores.search idx q k =
        (idx.take k).map (fun d => d.dropKeys Stores.legacySourceExcludes)) ∧
    (q ≠ "*" →
      Stores.searchBody q k =
        { size := k,
          query := .multiMatch q ["title^3", "description", "ingredients.name", "tags"] } ∧
      Stores.search idx q k =
        ((idx.filter (fun d => Stores.queryMatches
            (.multiMatch q ["title^3", "description", "ingredients.name", "tags"]) d)).take
          k).map (fun d => d.dropKeys Stores.legacySourceExcludes)) ∧
    (Stores.search idx q k).length ≤ k ∧
    (∀ d, d ∈ Stores.search idx q k →
      d.lookup "embedding" = none ∧ d.lookup "embedding_hint" = none) := by
  refine ⟨?_, ?_, ?_, ?_⟩
  · intro hq
    subst hq
    refine ⟨by simp [Stores.searchBody], ?_⟩
    simp [Stores.search, Stores.esSearch, Stores.searchBody, Stores.queryMatches,
      List.filter_true]
  · intro hq
    refine ⟨by simp [Stores.searchBody, hq], ?_⟩
    simp [Stores.search, Stores.esSearch, Stores.searchBody, hq]
  · unfold Stores.search Stores.esSearch
    rw [List.length_map]
    calc (List.take (Stores.searchBody q k).size
            (List.filter (fun d => Stores.queryMatches (Stores.searchBody q k).query d)
              idx)).length
        ≤ (Stores.searchBody q k).size := List.length_take_le _ _
      _ = k := by unfold Stores.searchBody; by_cases hq : q = "*" <;> simp [hq]
  · intro d hd
    unfold Stores.search Stores.esSearch at hd
    rcases List.mem_map.mp hd with ⟨a, _, ha⟩
    subst ha
    exact ⟨Doc.lookup_dropKeys_mem a Stores.legacySourceExcludes "embedding" (by rfl),
      Doc.lookup_dropKeys_mem a Stores.legacySourceExcludes "embedding_hint" (by rfl)⟩

/-- Witness for C10: the match-all branch at `q = "*"`, `k = 1` on two
concrete legacy documents, and the multi-match branch at the non-`"*"` query
`"vegan"`. -/
theorem legacy_keyword_search_contract_witness :
    (Stores.search [legacyDoc1, legacyDoc2] "*" 1 =
      ([legacyDoc1, legacyDoc2].take 1).map
        (fun d => d.dropKeys Stores.legacySourceExcludes)) ∧
    (Stores.searchBody "vegan" 5 =
      { size := 5,
        query := .multiMatch "vegan"
          ["title^3", "description", "ingredients.name", "tags"] }) :=
  ⟨((legacy_keyword_search_contract [legacyDoc1, legacyDoc2] "*" 1).1 rfl).2,
   ((legacy_keyword_search_contract [legacyDoc1, legacyDoc2] "vegan" 5).2.1
      (by decide)).1⟩

/-- C3: the claim fails on the code.  For a valid guide creation input on an
empty collection, creation raises `ConflictError` (see C1) and persists
nothing, so there is no returned URN to fetch: `Guide.get` on the canonical
URN answers `NotFoundError`. -/
theorem guide_create_then_get_unreachable :
    (Guide.create emptySt sampleGuideSpec "alice").1.guides = [] ∧
    (Guide.get (Guide.create emptySt sampleGuideSpec "alice").1
        "urn:guide:nutrition-basics").2 =
      .error (.NotFoundError "Guide with URN urn:guide:nutrition-basics not found.") :=
  ⟨rfl, rfl⟩

end Catalog
